import Mathlib

set_option maxRecDepth 100000

/-!
Shallow embedding of the stockanalyzer analysis core
(src/analysis/technical.py and src/analysis/fundamental.py).

Price data is modelled over the rationals.  A pandas DataFrame is a list of
OHLCV bars together with the extra (indicator) columns that the code assigns
into the frame; a missing value (NaN) in a derived column is `Option.none` or
`CellVal.undef`.  Float comparisons against NaN are always false in Python,
which the option-valued comparison helpers reproduce.  The Bollinger band
columns contain `middle + k*sqrt(var)`, which is irrational over the
rationals; the cell value `CellVal.sqrtVal m k v` records that expression
symbolically (m, the factor k, and the rolling sample variance v) exactly.
-/

namespace StockAnalyzer

/-- One OHLCV price bar (the Open column is never read by the analysis code). -/
structure PriceBar where
  high : ℚ
  low : ℚ
  close : ℚ
  volume : ℚ
deriving DecidableEq, Repr

/-- A value stored in a derived indicator column: NaN, an exact rational, or
the symbolic value `m + k·√v` used for the Bollinger bands. -/
inductive CellVal where
  | undef : CellVal
  | val : ℚ → CellVal
  | sqrtVal : ℚ → ℚ → ℚ → CellVal
deriving DecidableEq, Repr

/-- A pandas DataFrame: the OHLCV bars plus named derived columns that
`get_technical_summary` assigns into the frame. -/
structure DataFrame where
  bars : List PriceBar
  extras : List (String × List CellVal)
deriving DecidableEq, Repr

/-- The row fields of `latest`/`prev` that the signal logic reads. -/
structure Row where
  close : ℚ
  rsi : Option ℚ
  macd : Option ℚ
  macdSignal : Option ℚ
  sma20 : Option ℚ
  sma50 : Option ℚ
deriving DecidableEq, Repr

/-- The signals dict built by `_generate_signals`. -/
structure Signals where
  overall : String
  strength : ℤ
  reasons : List String
deriving DecidableEq, Repr

/-- Result of `_analyze_volume`: either the insufficient-data dict or the full
dict (current, average_20d, ratio, status). -/
inductive VolumeAnalysis where
  | insufficient : VolumeAnalysis
  | ok : ℤ → ℤ → ℚ → String → VolumeAnalysis
deriving DecidableEq, Repr

/-- Result of `_calculate_volatility`.  The code stores
`std(returns)·√252·100`; since the square root is irrational the model stores
its square `var·252·10000`, and the High/Moderate/Low thresholds 40/20 become
1600/400 (an order-preserving translation, as both sides are nonnegative). -/
inductive Volatility where
  | insufficient : Volatility
  | ok : ℚ → String → Volatility
deriving DecidableEq, Repr

/-- The `indicators` sub-dict of the technical summary. -/
structure Indicators where
  rsi : Option ℚ
  rsiSignal : String
  macd : Option ℚ
  macdSignal : Option ℚ
  macdHistogram : Option ℚ
  macdInterpretation : String
  sma20 : Option ℚ
  sma50 : Option ℚ
  sma200 : Option ℚ
  bbUpper : CellVal
  bbLower : CellVal
  atr : Option ℚ
deriving DecidableEq, Repr

/-- The full technical summary dict returned on success. -/
structure Summary where
  currentPrice : ℚ
  previousClose : ℚ
  changePct : ℚ
  volume : ℤ
  volumeAnalysis : VolumeAnalysis
  trend : String
  indicators : Indicators
  supportLevels : List ℚ
  resistanceLevels : List ℚ
  signals : Signals
  volatility : Volatility
deriving DecidableEq, Repr

/-- Return value of `get_technical_summary`: the error dict or the summary. -/
inductive SummaryResult where
  | error : String → SummaryResult
  | ok : Summary → SummaryResult
deriving DecidableEq, Repr

/-- Python `int(x)` on a float: truncation toward zero. -/
def qtrunc (q : ℚ) : ℤ :=
  if 0 ≤ q then q.num / (q.den : ℤ) else -((-q).num / ((-q).den : ℤ))

/-- Float comparison `a < b` where either side may be NaN (`none`): any
comparison involving NaN is false in Python. -/
def oLt (a b : Option ℚ) : Bool :=
  match a, b with
  | some x, some y => decide (x < y)
  | _, _ => false

/-- The closing prices of a frame. -/
def closesOf (df : DataFrame) : List ℚ := df.bars.map (·.close)

/-- Rolling mean with window `p` (pandas `rolling(window=p).mean()`): entry
`i` is the mean of the `p` trailing values, `none` until `p` values exist. -/
def rollMean (p : Nat) (l : List ℚ) : List (Option ℚ) :=
  (List.range l.length).map fun i =>
    if p ≤ i + 1 then some (((l.drop (i + 1 - p)).take p).sum / (p : ℚ)) else none

/-- Sample variance (pandas default ddof=1): `Σ(x−mean)² / (n−1)`. -/
def sampleVar (l : List ℚ) : ℚ :=
  ((l.map fun x => (x - l.sum / (l.length : ℚ)) ^ 2).sum) / ((l.length : ℚ) - 1)

/-- Rolling sample variance with window `p` (square of pandas
`rolling(window=p).std()`). -/
def rollVar (p : Nat) (l : List ℚ) : List (Option ℚ) :=
  (List.range l.length).map fun i =>
    if p ≤ i + 1 then some (sampleVar ((l.drop (i + 1 - p)).take p)) else none

/-- Exponential smoothing recursion `e = α·c + (1−α)·prev` (pandas
`ewm(span, adjust=False)`, which seeds at the first observation). -/
def ewmRec (a : ℚ) (prev : ℚ) : List ℚ → List ℚ
  | [] => []
  | c :: rest => (a * c + (1 - a) * prev) :: ewmRec a (a * c + (1 - a) * prev) rest

/-- `ewm(span, adjust=False).mean()` over a list, via the smoothing factor α. -/
def ewm (a : ℚ) (l : List ℚ) : List ℚ :=
  match l with
  | [] => []
  | c :: rest => c :: ewmRec a c rest

/-- `calculate_sma(data, period)`: rolling mean of Close. -/
def calculate_sma (df : DataFrame) (period : Nat) : List (Option ℚ) :=
  rollMean period (closesOf df)

/-- `calculate_ema(data, period)`: exponential moving average of Close with
smoothing factor `2/(period+1)`. -/
def calculate_ema (df : DataFrame) (period : Nat) : List ℚ :=
  ewm (2 / ((period : ℚ) + 1)) (closesOf df)

/-- The per-bar gain series of `calculate_rsi`: `delta.where(delta > 0, 0)`.
The first delta is NaN and `where` replaces it by 0 (NaN > 0 is false). -/
def gains (closes : List ℚ) : List ℚ :=
  match closes with
  | [] => []
  | _ :: _ => 0 :: ((closes.drop 1).zip closes).map fun p => max (p.1 - p.2) 0

/-- The per-bar loss series of `calculate_rsi`: `(-delta).where(delta < 0, 0)`,
losses as positive magnitudes, first entry 0. -/
def losses (closes : List ℚ) : List ℚ :=
  match closes with
  | [] => []
  | _ :: _ => 0 :: ((closes.drop 1).zip closes).map fun p => max (p.2 - p.1) 0

/-- The final RSI formula `100 − 100/(1+gain/loss)` on one pair of rolling
averages, with float edge cases: `loss = 0 ∧ gain > 0` gives `gain/loss = inf`
hence RSI 100; `0/0` is NaN (`none`); undefined inputs propagate. -/
def rsiCombine (g l : Option ℚ) : Option ℚ :=
  match g, l with
  | some g, some l =>
    if l = 0 then (if 0 < g then some 100 else none)
    else some (100 - 100 / (1 + g / l))
  | _, _ => none

/-- `calculate_rsi(data, period)`: rolling means of gains and losses combined
by `rsiCombine`. -/
def calculate_rsi (df : DataFrame) (period : Nat) : List (Option ℚ) :=
  List.zipWith rsiCombine (rollMean period (gains (closesOf df)))
    (rollMean period (losses (closesOf df)))

/-- `calculate_macd(data, fast, slow, signal)`: MACD line, signal line and
histogram. -/
def calculate_macd (df : DataFrame) (fast slow sig : Nat) : List ℚ × List ℚ × List ℚ :=
  let emaFast := calculate_ema df fast
  let emaSlow := calculate_ema df slow
  let macdLine := List.zipWith (· - ·) emaFast emaSlow
  let signalLine := ewm (2 / ((sig : ℚ) + 1)) macdLine
  let histogram := List.zipWith (· - ·) macdLine signalLine
  (macdLine, signalLine, histogram)

/-- Middle band (rolling mean) and rolling sample variance of
`calculate_bollinger_bands(data, period, 2)`; the bands themselves are
`middle ± 2·√variance`. -/
def calculate_bollinger_vars (df : DataFrame) (period : Nat) :
    List (Option ℚ) × List (Option ℚ) :=
  (rollMean period (closesOf df), rollVar period (closesOf df))

/-- True range per bar: `max(high−low, |high−prev_close|, |low−prev_close|)`;
on the first bar the prev-close terms are NaN and the row-wise max skips them,
leaving `high−low`. -/
def trueRange (bars : List PriceBar) : List ℚ :=
  match bars with
  | [] => []
  | b0 :: _ =>
    (b0.high - b0.low) ::
      ((bars.drop 1).zip bars).map fun p =>
        max (p.1.high - p.1.low) (max |p.1.high - p.2.close| |p.1.low - p.2.close|)

/-- `calculate_atr(data, period)`: rolling mean of the true range. -/
def calculate_atr (df : DataFrame) (period : Nat) : List (Option ℚ) :=
  rollMean period (trueRange df.bars)

/-- Label offset of a centered rolling window (pandas `center=True`):
`(w−1)/2`, so entry `i` aggregates indices `[i+1+off−w, i+off]`. -/
def centerOffset (w : Nat) : Nat := (w - 1) / 2

/-- The values covered by the centered rolling window of size `w` at label
`i`. -/
def centeredWindow (l : List ℚ) (w i : Nat) : List ℚ :=
  (l.drop (i + 1 + centerOffset w - w)).take w

/-- Whether `l[i]` equals the centered rolling minimum at `i`
(`data['Low'] == data['Low'].rolling(window=w, center=True).min()`); rows
whose centered window is incomplete compare against NaN and never match. -/
def isCenterMin (l : List ℚ) (w i : Nat) : Bool :=
  decide (w ≤ i + 1 + centerOffset w) && decide (i + 1 + centerOffset w ≤ l.length) &&
    ((centeredWindow l w i).min? == some (l.getD i 0))

/-- Symmetric test against the centered rolling maximum. -/
def isCenterMax (l : List ℚ) (w i : Nat) : Bool :=
  decide (w ≤ i + 1 + centerOffset w) && decide (i + 1 + centerOffset w ≤ l.length) &&
    ((centeredWindow l w i).max? == some (l.getD i 0))

/-- The lows that are centered-window minima, in row order (with repeats). -/
def supportPoints (l : List ℚ) (w : Nat) : List ℚ :=
  (List.range l.length).filterMap fun i =>
    if isCenterMin l w i then some (l.getD i 0) else none

/-- The highs that are centered-window maxima, in row order (with repeats). -/
def resistancePoints (l : List ℚ) (w : Nat) : List ℚ :=
  (List.range l.length).filterMap fun i =>
    if isCenterMax l w i then some (l.getD i 0) else none

/-- Python `sorted(xs)[-5:]`: the last five entries of the ascending sort. -/
def lastFive (l : List ℚ) : List ℚ := l.drop (l.length - 5)

/-- `unique` then `sorted(...)[-5:]`.  `pd.unique` keeps first occurrences
while `List.dedup` keeps last ones, but the subsequent ascending sort makes
the two give the same list. -/
def sortedLevels (pts : List ℚ) : List ℚ :=
  lastFive (List.insertionSort (fun a b => a ≤ b) pts.dedup)

/-- `find_support_resistance(data, window)`: empty when the series is shorter
than `2·window`, else the (≤5, ascending) support and resistance levels. -/
def find_support_resistance (df : DataFrame) (w : Nat) : List ℚ × List ℚ :=
  if df.bars.length < w * 2 then ([], [])
  else
    (sortedLevels (supportPoints (df.bars.map (·.low)) w),
     sortedLevels (resistancePoints (df.bars.map (·.high)) w))

/-- `_determine_trend`: compares latest close with SMA(20) and SMA(50);
`Unknown` when either average is NaN. -/
def determine_trend (price : ℚ) (sma20 sma50 : Option ℚ) : String :=
  match sma20, sma50 with
  | some s20, some s50 =>
    if s20 < price ∧ s50 < s20 then "Strong Uptrend"
    else if s20 < price then "Uptrend"
    else if price < s20 ∧ s20 < s50 then "Strong Downtrend"
    else if price < s20 then "Downtrend"
    else "Sideways"
  | _, _ => "Unknown"

/-- `_interpret_rsi`. -/
def interpret_rsi (rsi : Option ℚ) : String :=
  match rsi with
  | none => "Unknown"
  | some r => if 70 < r then "Overbought" else if r < 30 then "Oversold" else "Neutral"

/-- `_interpret_macd`: `Unknown` when the current MACD or signal value is
NaN; the crossover tests compare the previous row's values, where a NaN on
either side makes the float comparison false. -/
def interpret_macd (latest prev : Row) : String :=
  match latest.macd, latest.macdSignal with
  | some m, some s =>
    if oLt prev.macd prev.macdSignal && decide (s < m) then "Bullish Crossover"
    else if oLt prev.macdSignal prev.macd && decide (m < s) then "Bearish Crossover"
    else if s < m then "Bullish" else "Bearish"
  | _, _ => "Unknown"

/-- RSI contribution to the composite score, with its reason labels. -/
def rsiContrib (rsi : Option ℚ) : ℤ × List String :=
  match rsi with
  | some r =>
    if 70 < r then (-2, ["RSI Overbought"])
    else if r < 30 then (2, ["RSI Oversold"])
    else (0, [])
  | none => (0, [])

/-- MACD-interpretation contribution to the composite score. -/
def macdContrib (latest prev : Row) : ℤ × List String :=
  if interpret_macd latest prev = "Bullish Crossover" then (3, ["MACD Bullish Crossover"])
  else if interpret_macd latest prev = "Bearish Crossover" then (-3, ["MACD Bearish Crossover"])
  else (0, [])

/-- Moving-average contribution to the composite score (skipped when either
SMA is NaN). -/
def maContrib (latest : Row) : ℤ × List String :=
  match latest.sma20, latest.sma50 with
  | some a, some b =>
    if a < latest.close ∧ b < a then (2, ["Price Above Key MAs"])
    else if latest.close < a ∧ a < b then (-2, ["Price Below Key MAs"])
    else (0, [])
  | _, _ => (0, [])

/-- The composite integer score accumulated by `_generate_signals`. -/
def signal_score (latest prev : Row) : ℤ :=
  (rsiContrib latest.rsi).1 + (macdContrib latest prev).1 + (maContrib latest).1

/-- The overall-label mapping at the end of `_generate_signals`. -/
def recommend (score : ℤ) : String :=
  if 3 ≤ score then "STRONG BUY"
  else if 1 ≤ score then "BUY"
  else if score ≤ -3 then "STRONG SELL"
  else if score ≤ -1 then "SELL"
  else "NEUTRAL"

/-- `_generate_signals`: reasons accumulate in rule order, strength stores the
raw score. -/
def generate_signals (latest prev : Row) : Signals :=
  { overall := recommend (signal_score latest prev)
    strength := signal_score latest prev
    reasons := (rsiContrib latest.rsi).2 ++ (macdContrib latest prev).2 ++ (maContrib latest).2 }

/-- Mean volume over the trailing 20 bars. -/
def avgVolume20 (df : DataFrame) : ℚ :=
  ((df.bars.map (·.volume)).drop (df.bars.length - 20)).sum / 20

/-- The latest bar's volume. -/
def currentVolume (df : DataFrame) : ℚ :=
  (df.bars.map (·.volume)).getD (df.bars.length - 1) 0

/-- `_analyze_volume`: the ratio falls back to 1 when the 20-bar average is
not strictly positive. -/
def analyze_volume (df : DataFrame) : VolumeAnalysis :=
  if df.bars.length < 20 then .insufficient
  else
    let ratio := if 0 < avgVolume20 df then currentVolume df / avgVolume20 df else 1
    .ok (qtrunc (currentVolume df)) (qtrunc (avgVolume20 df)) ratio
      (if 3 / 2 < ratio then "High" else if 1 / 2 < ratio then "Normal" else "Low")

/-- Daily percentage returns `Close.pct_change()` (without the leading NaN). -/
def pctChanges (closes : List ℚ) : List ℚ :=
  ((closes.drop 1).zip closes).map fun p => p.1 / p.2 - 1

/-- `_calculate_volatility`, storing the square of the annualized volatility
(see `Volatility`). -/
def calculate_volatility (df : DataFrame) : Volatility :=
  if df.bars.length < 20 then .insufficient
  else
    let rets := pctChanges (closesOf df)
    let v := sampleVar (rets.drop (rets.length - 20)) * 252 * 10000
    .ok v (if 1600 < v then "High" else if 400 < v then "Moderate" else "Low")

/-- Column assignment `data[colName] = vals`: replace the column if present,
otherwise append it. -/
def setColList (l : List (String × List CellVal)) (colName : String)
    (vals : List CellVal) : List (String × List CellVal) :=
  match l with
  | [] => [(colName, vals)]
  | (m, w) :: rest =>
    if m = colName then (colName, vals) :: rest else (m, w) :: setColList rest colName vals

/-- Column assignment on a frame; the OHLCV bars are untouched. -/
def setCol (df : DataFrame) (colName : String) (vals : List CellVal) : DataFrame :=
  { df with extras := setColList df.extras colName vals }

/-- Cells of an option-valued series (NaN for `none`). -/
def cellsOfOpts (l : List (Option ℚ)) : List CellVal :=
  l.map fun o => match o with | none => .undef | some q => .val q

/-- Cells of an always-defined series. -/
def cellsOfVals (l : List ℚ) : List CellVal := l.map .val

/-- Upper Bollinger band cells `middle + 2·√var`. -/
def bbUpperCells (bb : List (Option ℚ) × List (Option ℚ)) : List CellVal :=
  List.zipWith (fun m v => match m, v with
    | some m, some v => CellVal.sqrtVal m 2 v
    | _, _ => CellVal.undef) bb.1 bb.2

/-- Lower Bollinger band cells `middle − 2·√var`. -/
def bbLowerCells (bb : List (Option ℚ) × List (Option ℚ)) : List CellVal :=
  List.zipWith (fun m v => match m, v with
    | some m, some v => CellVal.sqrtVal m (-2) v
    | _, _ => CellVal.undef) bb.1 bb.2

/-- The eleven indicator columns `get_technical_summary` assigns, in
assignment order, with their values. -/
def summaryColumns (df : DataFrame) : List (String × List CellVal) :=
  let bb := calculate_bollinger_vars df 20
  [("SMA_20", cellsOfOpts (calculate_sma df 20)),
   ("SMA_50", cellsOfOpts (calculate_sma df 50)),
   ("SMA_200", cellsOfOpts (calculate_sma df 200)),
   ("RSI", cellsOfOpts (calculate_rsi df 14)),
   ("MACD", cellsOfVals (calculate_macd df 12 26 9).1),
   ("MACD_Signal", cellsOfVals (calculate_macd df 12 26 9).2.1),
   ("MACD_Hist", cellsOfVals (calculate_macd df 12 26 9).2.2),
   ("BB_Upper", bbUpperCells bb),
   ("BB_Middle", cellsOfOpts bb.1),
   ("BB_Lower", bbLowerCells bb),
   ("ATR", cellsOfOpts (calculate_atr df 14))]

/-- Sequentially assign a list of columns into a frame. -/
def setCols (df : DataFrame) (cols : List (String × List CellVal)) : DataFrame :=
  cols.foldl (fun d p => setCol d p.1 p.2) df

/-- The `latest` (`iloc[-1]`) row fields read by the signal logic, after the
indicator columns have been computed. -/
def rowAt (df : DataFrame) (i : Nat) : Row :=
  { close := (closesOf df).getD i 0
    rsi := (calculate_rsi df 14).getD i none
    macd := (calculate_macd df 12 26 9).1[i]?
    macdSignal := (calculate_macd df 12 26 9).2.1[i]?
    sma20 := (calculate_sma df 20).getD i none
    sma50 := (calculate_sma df 50).getD i none }

/-- The body of `get_technical_summary` past the length guard: assigns the
indicator columns into the frame (mutating it) and builds the summary dict. -/
def computeSummary (df : DataFrame) : DataFrame × Summary :=
  let n := df.bars.length
  let latest := rowAt df (n - 1)
  let prev := if 1 < n then rowAt df (n - 2) else latest
  let bb := calculate_bollinger_vars df 20
  let sr := find_support_resistance df 20
  (setCols df (summaryColumns df),
   { currentPrice := latest.close
     previousClose := prev.close
     changePct := (latest.close - prev.close) / prev.close * 100
     volume := qtrunc (currentVolume df)
     volumeAnalysis := analyze_volume df
     trend := determine_trend latest.close latest.sma20 latest.sma50
     indicators :=
       { rsi := latest.rsi
         rsiSignal := interpret_rsi latest.rsi
         macd := latest.macd
         macdSignal := latest.macdSignal
         macdHistogram := (calculate_macd df 12 26 9).2.2[n - 1]?
         macdInterpretation := interpret_macd latest prev
         sma20 := latest.sma20
         sma50 := latest.sma50
         sma200 := (calculate_sma df 200).getD (n - 1) none
         bbUpper := (bbUpperCells bb).getD (n - 1) .undef
         bbLower := (bbLowerCells bb).getD (n - 1) .undef
         atr := (calculate_atr df 14).getD (n - 1) none }
     supportLevels := sr.1
     resistanceLevels := sr.2
     signals := generate_signals latest prev
     volatility := calculate_volatility df })

/-- `get_technical_summary(data)`: the insufficient-data error dict when the
frame is empty or shorter than 50 bars; otherwise the mutated frame (the
indicator columns are assigned into `data` itself) and the summary dict. -/
def get_technical_summary (df : DataFrame) : DataFrame × SummaryResult :=
  if df.bars = [] ∨ df.bars.length < 50 then
    (df, .error "Insufficient data for technical analysis")
  else ((computeSummary df).1, .ok (computeSummary df).2)

/-- `_interpret_pe` from src/analysis/fundamental.py; `not pe` is true for a
missing value and for 0, which the `v ≤ 0` test subsumes. -/
def interpret_pe (pe : Option ℚ) : String :=
  match pe with
  | none => "N/A"
  | some v =>
    if v ≤ 0 then "N/A"
    else if v < 15 then "Undervalued"
    else if v < 25 then "Fair Value"
    else "Overvalued"

/-- A constant price bar used for concrete test series. -/
def constBar : PriceBar := { high := 1, low := 1, close := 1, volume := 1 }

/-- A frame of `n` identical bars and no derived columns. -/
def constDf (n : Nat) : DataFrame := { bars := List.replicate n constBar, extras := [] }

/-- A frame of 20 bars whose volumes are all zero. -/
def zeroVolDf : DataFrame :=
  { bars := List.replicate 20 { high := 1, low := 1, close := 1, volume := 0 }, extras := [] }

/-- A frame whose close rises from 1 to 2 and then stays flat, long enough for
RSI(14) to be defined at index 14. -/
def rsiDf : DataFrame :=
  { bars := ({ high := 1, low := 1, close := 1, volume := 1 } : PriceBar) ::
      List.replicate 14 { high := 2, low := 2, close := 2, volume := 2 }
    extras := [] }

/-- The names of the indicator columns assigned by `get_technical_summary`,
in assignment order. -/
def indicatorColumns : List String :=
  ["SMA_20", "SMA_50", "SMA_200", "RSI", "MACD", "MACD_Signal", "MACD_Hist",
   "BB_Upper", "BB_Middle", "BB_Lower", "ATR"]

/-- Replacing or appending column `n` makes a lookup of `n` succeed. -/
theorem setColList_lookup_self (l : List (String × List CellVal)) (n : String)
    (v : List CellVal) : (setColList l n v).lookup n = some v := by
  induction l with
  | nil => simp [setColList, List.lookup]
  | cons p rest ih =>
    obtain ⟨m, w⟩ := p
    by_cases h : m = n
    · simp [setColList, h, List.lookup]
    · have hb : (n == m) = false := by simpa using fun hc => h hc.symm
      simp [setColList, if_neg h, List.lookup, hb, ih]

/-- Assigning a different column leaves a lookup unchanged. -/
theorem setColList_lookup_ne (l : List (String × List CellVal)) {n m : String}
    (v : List CellVal) (h : n ≠ m) : (setColList l m v).lookup n = l.lookup n := by
  have hb : (n == m) = false := by simpa using h
  induction l with
  | nil => simp [setColList, List.lookup, hb]
  | cons p rest ih =>
    obtain ⟨k, w⟩ := p
    by_cases hk : k = m
    · subst hk
      simp [setColList, List.lookup, hb]
    · cases hnk : (n == k) with
      | false => simp [setColList, if_neg hk, List.lookup, hnk, ih]
      | true => simp [setColList, if_neg hk, List.lookup, hnk]

/-- Column assignments never touch the OHLCV bars. -/
theorem setCols_bars (cols : List (String × List CellVal)) (df : DataFrame) :
    (setCols df cols).bars = df.bars := by
  induction cols generalizing df with
  | nil => rfl
  | cons p rest ih => exact ih (setCol df p.1 p.2)

/-- After a sequence of column assignments, every assigned column (and every
column that was already present) can be looked up. -/
theorem setCols_lookup_isSome (cols : List (String × List CellVal)) (df : DataFrame)
    (n : String) (h : (df.extras.lookup n).isSome = true ∨ n ∈ cols.map Prod.fst) :
    ((setCols df cols).extras.lookup n).isSome = true := by
  induction cols generalizing df with
  | nil =>
    rcases h with h | h
    · exact h
    · simp at h
  | cons p rest ih =>
    obtain ⟨m, v⟩ := p
    show ((setCols (setCol df m v) rest).extras.lookup n).isSome = true
    by_cases hmn : n = m
    · refine ih (setCol df m v) (Or.inl ?_)
      rw [show (setCol df m v).extras = setColList df.extras m v from rfl, hmn,
        setColList_lookup_self]
      rfl
    · rcases h with h | h
      · refine ih (setCol df m v) (Or.inl ?_)
        rw [show (setCol df m v).extras = setColList df.extras m v from rfl,
          setColList_lookup_ne _ _ hmn]
        exact h
      · simp only [List.map_cons, List.mem_cons] at h
        rcases h with h | h
        · exact absurd h hmn
        · exact ih (setCol df m v) (Or.inr h)

/-- C1: `get_technical_summary` returns the insufficient-data error, and no
indicator values, exactly when the series has fewer than 50 bars, and a full
summary exactly when it has 50 or more; in particular 49 bars give the error
and 50 bars give a full result. -/
theorem summary_insufficient_iff :
    (∀ df : DataFrame,
      ((get_technical_summary df).2 = .error "Insufficient data for technical analysis" ↔
        df.bars.length < 50) ∧
      ((∃ s, (get_technical_summary df).2 = .ok s) ↔ 50 ≤ df.bars.length)) ∧
    (get_technical_summary (constDf 49)).2 = .error "Insufficient data for technical analysis" ∧
    (∃ s, (get_technical_summary (constDf 50)).2 = .ok s) := by
  refine ⟨?_, by with_unfolding_all rfl, ⟨_, by with_unfolding_all rfl⟩⟩
  intro df
  by_cases hlt : df.bars.length < 50
  · rw [get_technical_summary, if_pos (Or.inr hlt)]
    refine ⟨iff_of_true rfl hlt, iff_of_false ?_ (by omega)⟩
    rintro ⟨s, hs⟩
    exact SummaryResult.noConfusion hs
  · have hc : ¬(df.bars = [] ∨ df.bars.length < 50) := by
      rintro (h1 | h1)
      · exact hlt (by rw [h1]; decide)
      · exact hlt h1
    rw [get_technical_summary, if_neg hc]
    exact ⟨iff_of_false (fun hs => SummaryResult.noConfusion hs) (by omega),
      iff_of_true ⟨_, rfl⟩ (by omega)⟩

/-- C3 counterexample: on a 50-bar series the frame returned as the post-call
state of the input differs from the input — the call has assigned eleven
indicator columns into it. -/
theorem summary_mutates_input : (get_technical_summary (constDf 50)).1 ≠ constDf 50 := by
  intro h
  have h2 : ((get_technical_summary (constDf 50)).1).extras.map Prod.fst = [] := by
    rw [h]; rfl
  have h3 : ((get_technical_summary (constDf 50)).1).extras.map Prod.fst = indicatorColumns := by
    with_unfolding_all rfl
  rw [h3] at h2
  exact absurd h2 (by decide)

/-- C3 (amended): `get_technical_summary` never modifies the OHLCV data and
is the identity on the frame below 50 bars, but on a sufficient series it
writes the eleven derived indicator columns back into the input frame rather
than producing them as separate outputs. -/
theorem summary_mutation_amended (df : DataFrame) :
    ((get_technical_summary df).1).bars = df.bars ∧
    (df.bars.length < 50 → (get_technical_summary df).1 = df) ∧
    (50 ≤ df.bars.length → ∀ col ∈ indicatorColumns,
      (((get_technical_summary df).1).extras.lookup col).isSome = true) := by
  refine ⟨?_, ?_, ?_⟩
  · rw [get_technical_summary]
    split
    · rfl
    · exact setCols_bars (summaryColumns df) df
  · intro h
    rw [get_technical_summary, if_pos (Or.inr h)]
  · intro h col hcol
    have hc : ¬(df.bars = [] ∨ df.bars.length < 50) := by
      rintro (h1 | h1)
      · rw [h1] at h
        exact absurd h (by decide)
      · omega
    rw [get_technical_summary, if_neg hc]
    refine setCols_lookup_isSome (summaryColumns df) df col (Or.inr ?_)
    rw [show (summaryColumns df).map Prod.fst = indicatorColumns from rfl]
    exact hcol

/-- Witness for C3's amended theorem on a concrete 50-bar series. -/
theorem summary_mutation_amended_witness :
    ((get_technical_summary (constDf 50)).1).bars = (constDf 50).bars ∧
    (((get_technical_summary (constDf 50)).1).extras.lookup "SMA_20").isSome = true := by
  have h := summary_mutation_amended (constDf 50)
  exact ⟨h.1, h.2.2 (by decide) "SMA_20" (by decide)⟩

/-- C9: `_interpret_pe` returns N/A for a missing or nonpositive P/E,
Undervalued on (0,15), Fair Value on [15,25), Overvalued on [25,∞); in
particular 12 ↦ Undervalued, 0 ↦ N/A, 30 ↦ Overvalued. -/
theorem pe_interpretation_spec :
    interpret_pe none = "N/A" ∧
    (∀ v : ℚ,
      (interpret_pe (some v) = "N/A" ↔ v ≤ 0) ∧
      (interpret_pe (some v) = "Undervalued" ↔ 0 < v ∧ v < 15) ∧
      (interpret_pe (some v) = "Fair Value" ↔ 15 ≤ v ∧ v < 25) ∧
      (interpret_pe (some v) = "Overvalued" ↔ 25 ≤ v)) ∧
    interpret_pe (some 12) = "Undervalued" ∧
    interpret_pe (some 0) = "N/A" ∧
    interpret_pe (some 30) = "Overvalued" := by
  refine ⟨rfl, ?_, by with_unfolding_all decide, by with_unfolding_all decide,
    by with_unfolding_all decide⟩
  intro v
  simp only [interpret_pe]
  split_ifs with h1 h2 h3
  · exact ⟨iff_of_true rfl h1,
      iff_of_false (by decide) (by rintro ⟨a, b⟩; linarith),
      iff_of_false (by decide) (by rintro ⟨a, b⟩; linarith),
      iff_of_false (by decide) (by intro a; linarith)⟩
  · exact ⟨iff_of_false (by decide) h1,
      iff_of_true rfl ⟨lt_of_not_le h1, h2⟩,
      iff_of_false (by decide) (by rintro ⟨a, b⟩; linarith),
      iff_of_false (by decide) (by intro a; linarith)⟩
  · exact ⟨iff_of_false (by decide) h1,
      iff_of_false (by decide) (by rintro ⟨a, b⟩; exact h2 b),
      iff_of_true rfl ⟨le_of_not_lt h2, h3⟩,
      iff_of_false (by decide) (by intro a; linarith)⟩
  · exact ⟨iff_of_false (by decide) h1,
      iff_of_false (by decide) (by rintro ⟨a, b⟩; linarith),
      iff_of_false (by decide) (by rintro ⟨a, b⟩; exact h3 b),
      iff_of_true rfl (le_of_not_lt h3)⟩

/-- C10: with at least 20 bars and a nonpositive 20-bar mean volume,
`_analyze_volume` does not divide: the ratio defaults to 1 and the status is
Normal. -/
theorem volume_zero_average_safe (df : DataFrame) (hlen : 20 ≤ df.bars.length)
    (havg : avgVolume20 df ≤ 0) :
    analyze_volume df =
      .ok (qtrunc (currentVolume df)) (qtrunc (avgVolume20 df)) 1 "Normal" := by
  have h1 : ¬ df.bars.length < 20 := by omega
  have h2 : ¬ 0 < avgVolume20 df := not_lt.2 havg
  simp only [analyze_volume, if_neg h1, if_neg h2]
  norm_num

/-- Witness for C10 at a concrete all-zero-volume series of 20 bars. -/
theorem volume_zero_average_safe_witness :
    analyze_volume zeroVolDf = .ok 0 0 1 "Normal" := by
  have h := volume_zero_average_safe zeroVolDf (by decide) (by with_unfolding_all decide)
  exact h.trans (by with_unfolding_all decide)

/-- C8: `get_technical_summary` is a pure function of the frame contents —
two calls on identical, unmutated copies return identical results (hence
bit-identical Signal Results). -/
theorem summary_idempotent (d1 d2 : DataFrame) (h : d1 = d2) :
    (get_technical_summary d1).2 = (get_technical_summary d2).2 := by rw [h]

/-- Witness for C8 on a concrete 50-bar series. -/
theorem summary_idempotent_witness :
    (get_technical_summary (constDf 50)).2 = (get_technical_summary (constDf 50)).2 :=
  summary_idempotent (constDf 50) (constDf 50) rfl

/-- C2 counterexample: with the previous difference exactly zero and the
current difference positive, the code labels the bar plain Bullish, not
Bullish Crossover as the claim's transition from negative-or-zero demands. -/
theorem macd_crossover_counterexample :
    ((0 : ℚ) - 0 ≤ 0 ∧ (0 : ℚ) < 1 - 0) ∧
    interpret_macd (⟨0, none, some 1, some 0, none, none⟩ : Row)
        (⟨0, none, some 0, some 0, none, none⟩ : Row) = "Bullish" ∧
    interpret_macd (⟨0, none, some 1, some 0, none, none⟩ : Row)
        (⟨0, none, some 0, some 0, none, none⟩ : Row) ≠ "Bullish Crossover" :=
  ⟨by norm_num, by with_unfolding_all decide, by with_unfolding_all decide⟩

/-- C2 (amended): with both rows defined, Bullish Crossover requires a
strictly negative previous difference turning positive (and symmetrically for
Bearish Crossover); otherwise Bullish when the current difference is positive,
else Bearish; Unknown when the current MACD or signal value is undefined. -/
theorem macd_interpretation_spec :
    (∀ (latest prev : Row) (m s pm ps : ℚ),
      latest.macd = some m → latest.macdSignal = some s →
      prev.macd = some pm → prev.macdSignal = some ps →
      ((interpret_macd latest prev = "Bullish Crossover" ↔ pm - ps < 0 ∧ 0 < m - s) ∧
       (interpret_macd latest prev = "Bearish Crossover" ↔ 0 < pm - ps ∧ m - s < 0) ∧
       (interpret_macd latest prev = "Bullish" ↔
         ¬(pm - ps < 0 ∧ 0 < m - s) ∧ 0 < m - s) ∧
       (interpret_macd latest prev = "Bearish" ↔
         ¬(0 < pm - ps ∧ m - s < 0) ∧ m - s ≤ 0))) ∧
    (∀ latest prev : Row, latest.macd = none ∨ latest.macdSignal = none →
      interpret_macd latest prev = "Unknown") := by
  constructor
  · intro latest prev m s pm ps hm hs hpm hps
    simp only [interpret_macd, hm, hs, hpm, hps, oLt, Bool.and_eq_true, decide_eq_true_eq,
      sub_neg, sub_pos, sub_nonpos]
    by_cases h1 : pm < ps ∧ s < m
    · rw [if_pos (by simpa using h1)]
      refine ⟨iff_of_true rfl h1, iff_of_false (by decide) ?_, iff_of_false (by decide) ?_,
        iff_of_false (by decide) ?_⟩
      · rintro ⟨a, b⟩; exact absurd h1.2 (not_lt.2 b.le)
      · rintro ⟨a, _⟩; exact a h1
      · rintro ⟨_, b⟩; exact absurd h1.2 (not_lt.2 b)
    · rw [if_neg (by simpa using h1)]
      by_cases h2 : ps < pm ∧ m < s
      · rw [if_pos (by simpa using h2)]
        refine ⟨iff_of_false (by decide) h1, iff_of_true rfl h2,
          iff_of_false (by decide) ?_, iff_of_false (by decide) ?_⟩
        · rintro ⟨_, b⟩; exact absurd h2.2 (not_lt.2 b.le)
        · rintro ⟨a, _⟩; exact a h2
      · rw [if_neg (by simpa using h2)]
        by_cases h3 : s < m
        · rw [if_pos h3]
          exact ⟨iff_of_false (by decide) h1, iff_of_false (by decide) h2,
            iff_of_true rfl ⟨h1, h3⟩, iff_of_false (by decide) (by rintro ⟨_, b⟩; linarith)⟩
        · rw [if_neg h3]
          exact ⟨iff_of_false (by decide) h1, iff_of_false (by decide) h2,
            iff_of_false (by decide) (by rintro ⟨_, b⟩; exact h3 b),
            iff_of_true rfl ⟨h2, le_of_not_lt h3⟩⟩
  · intro latest prev h
    rcases h with h | h
    · simp only [interpret_macd, h]
    · simp only [interpret_macd, h]
      cases latest.macd <;> rfl

/-- The RSI rule contributes −2, 0 or +2. -/
theorem rsiContrib_cases (r : Option ℚ) :
    (rsiContrib r).1 = -2 ∨ (rsiContrib r).1 = 0 ∨ (rsiContrib r).1 = 2 := by
  rcases r with _ | v
  · simp [rsiContrib]
  · simp only [rsiContrib]
    split_ifs <;> simp

/-- The MACD rule contributes +3, 0 or −3. -/
theorem macdContrib_cases (latest prev : Row) :
    (macdContrib latest prev).1 = 3 ∨ (macdContrib latest prev).1 = 0 ∨
      (macdContrib latest prev).1 = -3 := by
  unfold macdContrib
  split_ifs <;> simp

/-- The moving-average rule contributes −2, 0 or +2. -/
theorem maContrib_cases (latest : Row) :
    (maContrib latest).1 = -2 ∨ (maContrib latest).1 = 0 ∨ (maContrib latest).1 = 2 := by
  rcases h1 : latest.sma20 with _ | a
  · simp [maContrib, h1]
  · rcases h2 : latest.sma50 with _ | b
    · simp [maContrib, h1, h2]
    · simp only [maContrib, h1, h2]
      split_ifs <;> simp

/-- Every reachable composite score lies in [−7, 7]. -/
theorem signal_score_bounds (latest prev : Row) :
    -7 ≤ signal_score latest prev ∧ signal_score latest prev ≤ 7 := by
  have h1 := rsiContrib_cases latest.rsi
  have h2 := macdContrib_cases latest prev
  have h3 := maContrib_cases latest
  unfold signal_score
  rcases h1 with h1 | h1 | h1 <;> rcases h2 with h2 | h2 | h2 <;>
    rcases h3 with h3 | h3 | h3 <;> rw [h1, h2, h3] <;> omega

/-- C4 counterexample: the reachable score −1 (RSI oversold +2 and a bearish
MACD crossover −3) is labelled SELL, not NEUTRAL, so the claimed NEUTRAL band
−2..0 fails below zero. -/
theorem neutral_band_counterexample :
    signal_score (⟨10, some 20, some (-1), some 0, none, none⟩ : Row)
        (⟨9, none, some 1, some 0, none, none⟩ : Row) = -1 ∧
    (generate_signals (⟨10, some 20, some (-1), some 0, none, none⟩ : Row)
        (⟨9, none, some 1, some 0, none, none⟩ : Row)).overall = "SELL" ∧
    (generate_signals (⟨10, some 20, some (-1), some 0, none, none⟩ : Row)
        (⟨9, none, some 1, some 0, none, none⟩ : Row)).overall ≠ "NEUTRAL" := by
  with_unfolding_all decide

/-- C4 (amended): the recommendation bands are STRONG BUY on [3,∞), BUY on
{1,2}, NEUTRAL exactly at 0, STRONG SELL on (−∞,−3], SELL on {−1,−2}; the
strength field stores the raw unclamped score, every reachable score lies in
[−7,7], and a score of 5 is reachable and yields STRONG BUY with strength 5. -/
theorem signals_recommendation_spec :
    (∀ latest prev : Row,
      (generate_signals latest prev).strength = signal_score latest prev ∧
      (-7 ≤ signal_score latest prev ∧ signal_score latest prev ≤ 7) ∧
      ((generate_signals latest prev).overall = "STRONG BUY" ↔
        3 ≤ signal_score latest prev) ∧
      ((generate_signals latest prev).overall = "BUY" ↔
        signal_score latest prev = 1 ∨ signal_score latest prev = 2) ∧
      ((generate_signals latest prev).overall = "NEUTRAL" ↔
        signal_score latest prev = 0) ∧
      ((generate_signals latest prev).overall = "STRONG SELL" ↔
        signal_score latest prev ≤ -3) ∧
      ((generate_signals latest prev).overall = "SELL" ↔
        signal_score latest prev = -1 ∨ signal_score latest prev = -2)) ∧
    (∃ latest prev : Row, signal_score latest prev = 5 ∧
      (generate_signals latest prev).overall = "STRONG BUY" ∧
      (generate_signals latest prev).strength = 5) := by
  constructor
  · intro latest prev
    refine ⟨rfl, signal_score_bounds latest prev, ?_⟩
    have hov : (generate_signals latest prev).overall =
        recommend (signal_score latest prev) := rfl
    have hb := signal_score_bounds latest prev
    rw [hov]
    set n := signal_score latest prev with hn
    unfold recommend
    split_ifs with g1 g2 g3 g4 <;>
      refine ⟨?_, ?_, ?_, ?_, ?_⟩ <;>
      first
        | exact iff_of_true rfl (by omega)
        | exact iff_of_false (by decide) (by omega)
  · exact ⟨⟨10, some 50, some 1, some 0, some 5, some 1⟩,
      ⟨9, none, some (-1), some 0, none, none⟩, by with_unfolding_all decide⟩

/-- C5: trend classification against SMA(20) and SMA(50): strict chains give
the strong labels, a one-sided comparison the plain labels, the tie
close = SMA20 falls to Sideways, and any undefined average gives Unknown. -/
theorem trend_spec :
    (∀ price s20 s50 : ℚ,
      (determine_trend price (some s20) (some s50) = "Strong Uptrend" ↔
        s20 < price ∧ s50 < s20) ∧
      (determine_trend price (some s20) (some s50) = "Uptrend" ↔
        s20 < price ∧ s20 ≤ s50) ∧
      (determine_trend price (some s20) (some s50) = "Strong Downtrend" ↔
        price < s20 ∧ s20 < s50) ∧
      (determine_trend price (some s20) (some s50) = "Downtrend" ↔
        price < s20 ∧ s50 ≤ s20) ∧
      (determine_trend price (some s20) (some s50) = "Sideways" ↔ price = s20)) ∧
    (∀ (price : ℚ) (o : Option ℚ), determine_trend price none o = "Unknown" ∧
      determine_trend price o none = "Unknown") := by
  constructor
  · intro p a b
    simp only [determine_trend]
    split_ifs with h1 h2 h3 h4
    · exact ⟨iff_of_true rfl h1,
        iff_of_false (by decide) (fun hc => absurd h1.2 (not_lt.2 hc.2)),
        iff_of_false (by decide) (fun hc => absurd h1.1 (not_lt.2 hc.1.le)),
        iff_of_false (by decide) (fun hc => absurd h1.1 (not_lt.2 hc.1.le)),
        iff_of_false (by decide) (fun hc => absurd (hc ▸ h1.1) (lt_irrefl a))⟩
    · exact ⟨iff_of_false (by decide) h1,
        iff_of_true rfl ⟨h2, le_of_not_lt fun hb => h1 ⟨h2, hb⟩⟩,
        iff_of_false (by decide) (fun hc => absurd h2 (not_lt.2 hc.1.le)),
        iff_of_false (by decide) (fun hc => absurd h2 (not_lt.2 hc.1.le)),
        iff_of_false (by decide) (fun hc => absurd (hc ▸ h2) (lt_irrefl a))⟩
    · exact ⟨iff_of_false (by decide) (fun hc => absurd h3.1 (not_lt.2 hc.1.le)),
        iff_of_false (by decide) (fun hc => absurd h3.1 (not_lt.2 hc.1.le)),
        iff_of_true rfl h3,
        iff_of_false (by decide) (fun hc => absurd h3.2 (not_lt.2 hc.2)),
        iff_of_false (by decide) (fun hc => absurd (hc ▸ h3.1) (lt_irrefl a))⟩
    · exact ⟨iff_of_false (by decide) (fun hc => absurd h4 (not_lt.2 hc.1.le)),
        iff_of_false (by decide) (fun hc => absurd h4 (not_lt.2 hc.1.le)),
        iff_of_false (by decide) (fun hc => h3 ⟨h4, hc.2⟩),
        iff_of_true rfl ⟨h4, le_of_not_lt fun hb => h3 ⟨h4, hb⟩⟩,
        iff_of_false (by decide) (fun hc => absurd (hc ▸ h4) (lt_irrefl a))⟩
    · exact ⟨iff_of_false (by decide) (fun hc => h2 hc.1),
        iff_of_false (by decide) (fun hc => h2 hc.1),
        iff_of_false (by decide) (fun hc => h4 hc.1),
        iff_of_false (by decide) (fun hc => h4 hc.1),
        iff_of_true rfl (le_antisymm (le_of_not_lt h2) (le_of_not_lt h4))⟩
  · intro p o
    exact ⟨rfl, by cases o <;> rfl⟩

/-- Witness for C2's amended theorem: a genuine strict bullish crossover. -/
theorem macd_interpretation_spec_witness :
    interpret_macd (⟨0, none, some 1, some 0, none, none⟩ : Row)
        (⟨0, none, some (-1), some 0, none, none⟩ : Row) = "Bullish Crossover" ↔
      (-1 : ℚ) - 0 < 0 ∧ (0 : ℚ) < 1 - 0 :=
  (macd_interpretation_spec.1 (⟨0, none, some 1, some 0, none, none⟩ : Row)
    (⟨0, none, some (-1), some 0, none, none⟩ : Row) 1 0 (-1) 0 rfl rfl rfl rfl).1

/-- Every entry of the gain series is nonnegative. -/
theorem gains_nonneg (closes : List ℚ) : ∀ x ∈ gains closes, 0 ≤ x := by
  intro x hx
  rcases closes with _ | ⟨c, rest⟩
  · simp [gains] at hx
  · simp only [gains, List.mem_cons, List.mem_map] at hx
    rcases hx with rfl | ⟨p, _, rfl⟩
    · exact le_refl 0
    · exact le_max_right _ _

/-- Every entry of the loss series is nonnegative. -/
theorem losses_nonneg (closes : List ℚ) : ∀ x ∈ losses closes, 0 ≤ x := by
  intro x hx
  rcases closes with _ | ⟨c, rest⟩
  · simp [losses] at hx
  · simp only [losses, List.mem_cons, List.mem_map] at hx
    rcases hx with rfl | ⟨p, _, rfl⟩
    · exact le_refl 0
    · exact le_max_right _ _

/-- A defined rolling mean of a nonnegative series is nonnegative. -/
theorem rollMean_nonneg {p : Nat} {l : List ℚ} (hl : ∀ x ∈ l, 0 ≤ x) {i : Nat} {v : ℚ}
    (h : (rollMean p l)[i]? = some (some v)) : 0 ≤ v := by
  unfold rollMean at h
  rw [List.getElem?_map] at h
  rcases hi : (List.range l.length)[i]? with _ | j
  · rw [hi] at h; exact absurd h (by simp)
  · rw [hi] at h
    simp only [Option.map_some'] at h
    injection h with h
    by_cases hp : p ≤ j + 1
    · rw [if_pos hp] at h
      injection h with h
      rw [← h]
      refine div_nonneg (List.sum_nonneg fun x hx => ?_) (by positivity)
      exact hl x (List.drop_subset _ _ (List.take_subset _ _ hx))
    · rw [if_neg hp] at h
      exact absurd h (by simp)

/-- C6: wherever RSI(14) is defined its value lies in [0,100], and it equals
100 exactly when the rolling average loss is zero while the rolling average
gain is positive. -/
theorem rsi_bounds (df : DataFrame) (i : Nat) (g l r : ℚ)
    (hg : (rollMean 14 (gains (closesOf df)))[i]? = some (some g))
    (hl : (rollMean 14 (losses (closesOf df)))[i]? = some (some l))
    (hr : (calculate_rsi df 14)[i]? = some (some r)) :
    (0 ≤ r ∧ r ≤ 100) ∧ (r = 100 ↔ l = 0 ∧ 0 < g) := by
  have hg0 : 0 ≤ g := rollMean_nonneg (gains_nonneg _) hg
  have hl0 : 0 ≤ l := rollMean_nonneg (losses_nonneg _) hl
  have hr0 : rsiCombine (some g) (some l) = some r := by
    unfold calculate_rsi at hr
    rw [List.getElem?_zipWith, hg, hl] at hr
    simpa using hr
  have hr' : (if l = 0 then (if 0 < g then some (100 : ℚ) else none)
      else some (100 - 100 / (1 + g / l))) = some r := hr0
  by_cases hlz : l = 0
  · rw [if_pos hlz] at hr'
    by_cases hgz : 0 < g
    · rw [if_pos hgz] at hr'
      injection hr' with hr'
      constructor
      · rw [← hr']; norm_num
      · rw [← hr']
        exact iff_of_true rfl ⟨hlz, hgz⟩
    · rw [if_neg hgz] at hr'
      exact absurd hr' (by simp)
  · rw [if_neg hlz] at hr'
    injection hr' with hr'
    have ht : 0 ≤ g / l := div_nonneg hg0 hl0
    have h1 : (0 : ℚ) < 1 + g / l := by linarith
    have hd : 0 < 100 / (1 + g / l) := div_pos (by norm_num) h1
    have hd2 : 100 / (1 + g / l) ≤ 100 := div_le_self (by norm_num) (by linarith)
    constructor
    · constructor
      · rw [← hr']; linarith
      · rw [← hr']; linarith
    · constructor
      · intro h100
        rw [← hr'] at h100
        linarith
      · rintro ⟨hzero, _⟩
        exact absurd hzero hlz

/-- Witness for C6 at a series that steps from 1 to 2 then stays flat: at
index 14 the average gain is 1/14, the average loss 0, and RSI is 100. -/
theorem rsi_bounds_witness :
    ((0 : ℚ) ≤ 100 ∧ (100 : ℚ) ≤ 100) ∧ ((100 : ℚ) = 100 ↔ (0 : ℚ) = 0 ∧ (0 : ℚ) < 1 / 14) :=
  rsi_bounds rsiDf 14 (1 / 14) 0 100 (by with_unfolding_all decide)
    (by with_unfolding_all decide) (by with_unfolding_all decide)

/-- A `min?` value is a member and a lower bound. -/
theorem min?_spec {l : List ℚ} {x : ℚ} (h : l.min? = some x) : x ∈ l ∧ ∀ y ∈ l, x ≤ y :=
  ⟨List.min?_mem (fun a b => min_choice a b) h,
   fun y hy => (List.le_min?_iff (fun _ _ _ => le_min_iff) h).1 (le_refl x) y hy⟩

/-- A `max?` value is a member and an upper bound. -/
theorem max?_spec {l : List ℚ} {x : ℚ} (h : l.max? = some x) : x ∈ l ∧ ∀ y ∈ l, y ≤ x :=
  ⟨List.max?_mem (fun a b => max_choice a b) h,
   fun y hy => (List.max?_le_iff (fun _ _ _ => max_le_iff) h).1 (le_refl x) y hy⟩

/-- Unpacking membership in the qualifying support points: the level sits at a
row whose centered window is complete and whose low is the window minimum. -/
theorem mem_supportPoints {l : List ℚ} {w : Nat} {x : ℚ} (h : x ∈ supportPoints l w) :
    ∃ i, w ≤ i + 1 + centerOffset w ∧ i + 1 + centerOffset w ≤ l.length ∧
      l.getD i 0 = x ∧ (centeredWindow l w i).min? = some x := by
  unfold supportPoints at h
  rw [List.mem_filterMap] at h
  obtain ⟨i, _, hx⟩ := h
  by_cases hq : isCenterMin l w i
  · rw [if_pos hq] at hx
    injection hx with hx1
    unfold isCenterMin at hq
    simp only [Bool.and_eq_true, decide_eq_true_eq, beq_iff_eq] at hq
    exact ⟨i, hq.1.1, hq.1.2, hx1, hx1 ▸ hq.2⟩
  · rw [if_neg hq] at hx
    exact absurd hx (by simp)

/-- Unpacking membership in the qualifying resistance points. -/
theorem mem_resistancePoints {l : List ℚ} {w : Nat} {x : ℚ} (h : x ∈ resistancePoints l w) :
    ∃ i, w ≤ i + 1 + centerOffset w ∧ i + 1 + centerOffset w ≤ l.length ∧
      l.getD i 0 = x ∧ (centeredWindow l w i).max? = some x := by
  unfold resistancePoints at h
  rw [List.mem_filterMap] at h
  obtain ⟨i, _, hx⟩ := h
  by_cases hq : isCenterMax l w i
  · rw [if_pos hq] at hx
    injection hx with hx1
    unfold isCenterMax at hq
    simp only [Bool.and_eq_true, decide_eq_true_eq, beq_iff_eq] at hq
    exact ⟨i, hq.1.1, hq.1.2, hx1, hx1 ▸ hq.2⟩
  · rw [if_neg hq] at hx
    exact absurd hx (by simp)

/-- The selected levels are strictly ascending (distinct and sorted). -/
theorem sortedLevels_sorted (pts : List ℚ) : List.Sorted (· < ·) (sortedLevels pts) := by
  have hs : List.Sorted (fun a b : ℚ => a ≤ b) (List.insertionSort (fun a b => a ≤ b) pts.dedup) :=
    List.sorted_insertionSort _ _
  have hnd : (List.insertionSort (fun a b : ℚ => a ≤ b) pts.dedup).Nodup :=
    ((List.perm_insertionSort _ _).nodup_iff).mpr (List.nodup_dedup pts)
  have hlt := List.Sorted.lt_of_le hs hnd
  unfold sortedLevels lastFive
  exact List.Pairwise.sublist (List.drop_sublist _ _) hlt

/-- At most five levels are kept. -/
theorem sortedLevels_length (pts : List ℚ) : (sortedLevels pts).length ≤ 5 := by
  unfold sortedLevels lastFive
  rw [List.length_drop]
  omega

/-- Every kept level is a qualifying point. -/
theorem mem_sortedLevels (pts : List ℚ) {x : ℚ} (h : x ∈ sortedLevels pts) : x ∈ pts := by
  unfold sortedLevels lastFive at h
  have h1 : x ∈ List.insertionSort (fun a b : ℚ => a ≤ b) pts.dedup :=
    List.drop_subset _ _ h
  exact List.mem_dedup.1 ((List.perm_insertionSort _ _).mem_iff.1 h1)

/-- The kept levels are the highest-valued ones: any qualifying point that is
dropped is below (or equal to) every kept level. -/
theorem sortedLevels_top (pts : List ℚ) {x y : ℚ} (hx : x ∈ pts)
    (hnx : x ∉ sortedLevels pts) (hy : y ∈ sortedLevels pts) : x ≤ y := by
  have hsort : List.Sorted (fun a b : ℚ => a ≤ b)
      (List.insertionSort (fun a b => a ≤ b) pts.dedup) :=
    List.sorted_insertionSort _ _
  have hxs : x ∈ List.insertionSort (fun a b : ℚ => a ≤ b) pts.dedup :=
    (List.perm_insertionSort _ _).mem_iff.2 (List.mem_dedup.2 hx)
  set s := List.insertionSort (fun a b : ℚ => a ≤ b) pts.dedup with hsdef
  have hxtake : x ∈ s.take (s.length - 5) := by
    have : x ∈ s.take (s.length - 5) ++ s.drop (s.length - 5) := by
      rw [List.take_append_drop]; exact hxs
    rcases List.mem_append.1 this with h | h
    · exact h
    · exact absurd h hnx
  have hpw : List.Pairwise (fun a b : ℚ => a ≤ b)
      (s.take (s.length - 5) ++ s.drop (s.length - 5)) := by
    rw [List.take_append_drop]; exact hsort
  exact (List.pairwise_append.1 hpw).2.2 x hxtake y hy

/-- C7: `find_support_resistance` with window 20 returns at most five strictly
ascending levels of each kind, empty below 40 bars; each support level is a
low equal to the minimum of its complete centered 20-bar window (indices
i−10..i+9), symmetrically for resistance; and the kept levels are the
highest-valued qualifying ones. -/
theorem support_resistance_spec (df : DataFrame) :
    (df.bars.length < 40 → find_support_resistance df 20 = ([], [])) ∧
    (find_support_resistance df 20).1.length ≤ 5 ∧
    (find_support_resistance df 20).2.length ≤ 5 ∧
    List.Sorted (· < ·) (find_support_resistance df 20).1 ∧
    List.Sorted (· < ·) (find_support_resistance df 20).2 ∧
    (∀ x ∈ (find_support_resistance df 20).1, ∃ i, 10 ≤ i ∧
      i + 10 ≤ (df.bars.map (·.low)).length ∧ (df.bars.map (·.low)).getD i 0 = x ∧
      (centeredWindow (df.bars.map (·.low)) 20 i).min? = some x) ∧
    (∀ x ∈ (find_support_resistance df 20).2, ∃ i, 10 ≤ i ∧
      i + 10 ≤ (df.bars.map (·.high)).length ∧ (df.bars.map (·.high)).getD i 0 = x ∧
      (centeredWindow (df.bars.map (·.high)) 20 i).max? = some x) ∧
    (∀ x ∈ supportPoints (df.bars.map (·.low)) 20,
      x ∉ (find_support_resistance df 20).1 →
      ∀ y ∈ (find_support_resistance df 20).1, x ≤ y) ∧
    (∀ x ∈ resistancePoints (df.bars.map (·.high)) 20,
      x ∉ (find_support_resistance df 20).2 →
      ∀ y ∈ (find_support_resistance df 20).2, x ≤ y) := by
  constructor
  · intro h
    unfold find_support_resistance
    rw [if_pos (by omega)]
  by_cases hn : df.bars.length < 40
  · have he : find_support_resistance df 20 = ([], []) := by
      unfold find_support_resistance
      rw [if_pos (by omega)]
    rw [he]
    simp
  · have he : find_support_resistance df 20 =
        (sortedLevels (supportPoints (df.bars.map (·.low)) 20),
         sortedLevels (resistancePoints (df.bars.map (·.high)) 20)) := by
      unfold find_support_resistance
      rw [if_neg (by omega)]
    rw [he]
    have hco : centerOffset 20 = 9 := rfl
    refine ⟨sortedLevels_length _, sortedLevels_length _, sortedLevels_sorted _,
      sortedLevels_sorted _, ?_, ?_, ?_, ?_⟩
    · intro x hx
      obtain ⟨i, h1, h2, h3, h4⟩ := mem_supportPoints (mem_sortedLevels _ hx)
      rw [hco] at h1 h2
      exact ⟨i, by omega, by omega, h3, h4⟩
    · intro x hx
      obtain ⟨i, h1, h2, h3, h4⟩ := mem_resistancePoints (mem_sortedLevels _ hx)
      rw [hco] at h1 h2
      exact ⟨i, by omega, by omega, h3, h4⟩
    · intro x hx hnx y hy
      exact sortedLevels_top _ hx hnx hy
    · intro x hx hnx y hy
      exact sortedLevels_top _ hx hnx hy

/-- Witness for C7: a 39-bar series gives empty levels, and on a 40-bar
constant series the single support level 1 qualifies as a centered-window
minimum. -/
theorem support_resistance_spec_witness :
    find_support_resistance (constDf 39) 20 = ([], []) ∧
    (∃ i, 10 ≤ i ∧ i + 10 ≤ ((constDf 40).bars.map (·.low)).length ∧
      ((constDf 40).bars.map (·.low)).getD i 0 = 1 ∧
      (centeredWindow ((constDf 40).bars.map (·.low)) 20 i).min? = some 1) := by
  refine ⟨(support_resistance_spec (constDf 39)).1 (by decide), ?_⟩
  exact (support_resistance_spec (constDf 40)).2.2.2.2.2.1 1 (by with_unfolding_all decide)

end StockAnalyzer
